import Mathlib

/-
Verification of the config-sync-and-reload script (src/main.py) against its
natural-language specification.

The script is embedded shallowly: each Python function that the claims touch
is translated into a Lean definition over explicit inputs (file contents,
HTTP outcomes, subprocess outcomes).  Python runtime errors that the source
actually raises (IndexError, TypeError, AttributeError, uncaught request
exceptions) are modelled with an explicit error type, because several of the
script's code paths terminate in such errors rather than in the behaviour the
specification describes.
-/

set_option autoImplicit false

namespace BirdSync

/-- Python runtime errors that the script can raise on the paths modelled
here.  `indexError` arises from `line.strip()[0]` on a blank line;
`typeError` arises from `hashlib`'s `update` being given a `str` (line 208)
and from the five-argument call to the three-parameter `revert_config`
(line 280); `attributeError` arises from `os.copyfile` (line 218) and
`os.move` (line 231), which do not exist in the `os` module; `requestExc`
models an uncaught `requests` transport exception (e.g. ConnectionError). -/
inductive PyErr where
  | indexError
  | typeError
  | attributeError
  | requestExc
  deriving DecidableEq

/-- Equality of `Except` values is decidable when it is on both components;
used only to evaluate the model on concrete inputs. -/
instance {ε α : Type} [DecidableEq ε] [DecidableEq α] : DecidableEq (Except ε α) := fun x y =>
  match x, y with
  | .ok a, .ok b =>
    if h : a = b then isTrue (by rw [h]) else isFalse (fun hc => h (Except.ok.inj hc))
  | .ok _, .error _ => isFalse (fun hc => Except.noConfusion hc)
  | .error _, .ok _ => isFalse (fun hc => Except.noConfusion hc)
  | .error e, .error f =>
    if h : e = f then isTrue (by rw [h]) else isFalse (fun hc => h (Except.error.inj hc))

/-- The ASCII whitespace characters stripped by Python's `str.strip()`
(space, tab, newline, carriage return, vertical tab, form feed). -/
def pySpace (c : Char) : Bool :=
  c = ' ' || c = '\t' || c = '\n' || c = '\r' || c = Char.ofNat 11 || c = Char.ofNat 12

/-- Python `line.strip()`: remove leading and trailing whitespace. -/
def pyStrip (s : String) : String :=
  String.mk (((s.toList.dropWhile pySpace).reverse.dropWhile pySpace).reverse)

/-- Python string truthiness: a string is truthy iff it is nonempty. -/
def pyTruthy (s : String) : Bool :=
  s.toList.length != 0

/-- Python `s[i]` on a string: the one-character string at index `i`, or
IndexError when the index is out of range (in particular `""[0]`). -/
def strIndex (s : String) (i : Nat) : Except PyErr String :=
  if h : i < s.toList.length then .ok (String.mk [s.toList.get ⟨i, h⟩])
  else .error .indexError

/-- Helper for `readlines`: split a character stream into lines, each line
keeping its trailing newline, with a final unterminated line kept as well.
`acc` holds the current line's characters in reverse. -/
def readlinesAux : List Char → List Char → List String
  | [], acc => if acc.isEmpty then [] else [String.mk acc.reverse]
  | c :: rest, acc =>
    if c = '\n' then String.mk (acc.reverse ++ ['\n']) :: readlinesAux rest []
    else readlinesAux rest (c :: acc)

/-- Python `file.readlines()` on a text file whose decoded content is `s`
(universal-newline translation has already produced `\n` terminators). -/
def readlines (s : String) : List String :=
  readlinesAux s.toList []

/-- The loop body of `filter_comments` (src/main.py lines 195-197):
for each line, evaluate `line.strip()[0]` (IndexError on a blank or
whitespace-only line) and append the line to the accumulator only when
`not line.strip()[0]` is true — which it never is, since a one-character
string is always truthy in Python. -/
def filterCommentsLines : List String → String → Except PyErr String
  | [], acc => .ok acc
  | line :: rest, acc =>
    match strIndex (pyStrip line) 0 with
    | .error e => .error e
    | .ok c =>
      if pyTruthy c then filterCommentsLines rest acc
      else filterCommentsLines rest (acc ++ line)

/-- `filter_comments(file_path)` (src/main.py lines 191-198), applied to the
content of the file.  Despite its name and comment, the condition
`not line.strip()[0]` never holds on a line that has a non-whitespace
character, and raises IndexError on a line that has none. -/
def filter_comments (content : String) : Except PyErr String :=
  filterCommentsLines (readlines content) ""

/-- A Python value passed to `hashlib`'s `update`: either a `str` or a
`bytes` object. -/
inductive PyVal where
  | str (s : String)
  | bytes (b : List Nat)

/-- Model of a `hashlib.sha256()` object: the list of byte-strings fed to it
so far. -/
structure PyHash where
  fed : List (List Nat)

/-- `hash.update(x)`: `hashlib` requires a bytes-like object; passing a
`str` raises `TypeError: Unicode-objects must be encoded before hashing`.
`detect_change` (src/main.py lines 208 and 210) passes the `str` results of
`filter_comments`, so both of its `update` calls raise. -/
def PyHash.update (h : PyHash) : PyVal → Except PyErr PyHash
  | .str _ => .error .typeError
  | .bytes b => .ok ⟨h.fed ++ [b]⟩

/-- `hash.hexdigest()`: modelled as an injective encoding of the data fed so
far.  The script never reaches a `hexdigest` call (both `update` calls raise
first), so only injectivity on `fed` could ever matter. -/
def PyHash.hexdigest (h : PyHash) : String :=
  toString h.fed

/-- The fresh `hashlib.sha256()` object created at src/main.py line 207. -/
def hashInit : PyHash := ⟨[]⟩

/-- `detect_change(cfile, dest)` (src/main.py lines 202-223) applied to the
content of the active file (`none` when the file does not exist) and the
content of the staged file.  The structure mirrors the source line by line:
when the active file exists, both files are filtered, the same hash object
is updated with each filtered `str` (raising TypeError at the first
update), and — were that ever reached — the two hexdigests of the one
object would be compared; the equal branch removes the staged file and
returns 0, the unequal branch calls `os.copyfile`, which does not exist in
the `os` module (AttributeError).  When the active file does not exist, the
staged file is renamed onto it and 1 is returned. -/
def detect_change (activeContent : Option String) (stagedContent : String) :
    Except PyErr Nat :=
  match activeContent with
  | none => .ok 1
  | some ac =>
    match filter_comments ac with
    | .error e => .error e
    | .ok cfile_filtered =>
      match filter_comments stagedContent with
      | .error e => .error e
      | .ok dest_filtered =>
        match hashInit.update (.str cfile_filtered) with
        | .error e => .error e
        | .ok h1 =>
          match h1.update (.str dest_filtered) with
          | .error e => .error e
          | .ok h2 =>
            if h1.hexdigest = h2.hexdigest then .ok 0
            else .error .attributeError

/-- Fuel-driven scan for Python's `str.count(sub)` with a nonempty pattern:
count non-overlapping occurrences, scanning left to right and skipping the
whole pattern after a match.  The fuel bounds the number of scan steps; each
step consumes at least one character, so `length + 1` fuel is exact. -/
def countOccAux (pat : List Char) : List Char → Nat → Nat
  | _, 0 => 0
  | s, Nat.succ fuel =>
    match s with
    | [] => 0
    | c :: rest =>
      if List.isPrefixOf pat (c :: rest) then
        1 + countOccAux pat (List.drop pat.length (c :: rest)) fuel
      else countOccAux pat rest fuel

/-- Python `s.count(pat)` for a nonempty pattern. -/
def countPy (s pat : String) : Nat :=
  countOccAux pat.toList s.toList (s.toList.length + 1)

/-- The fixed marker string counted by `is_valid_file` (src/main.py line 168). -/
def protocolMarker : String := "protocol bgp pb_"

/-- How a run of the script terminates or crashes: an explicit `sys.exit`
with a status code, or an uncaught Python exception. -/
inductive Abort where
  | exit (code : Nat)
  | exc (e : PyErr)
  deriving DecidableEq

/-- Outcome of one stage of the script: return normally or abort the
process (via `sys.exit` or an uncaught exception). -/
inductive StepResult (α : Type) where
  | ok (a : α)
  | abort (a : Abort)
  deriving DecidableEq

/-- The process exit status an external supervisor observes: the code of the
`sys.exit`, or 1 when the interpreter dies on an uncaught exception. -/
def processExit : StepResult Unit → Nat
  | .abort (.exit n) => n
  | .abort (.exc _) => 1
  | .ok _ => 0

/-- Externally visible actions of a run, in order: the lock POST, the
config GET, the `bird -p` parse-only check, the `birdc show status` probe,
the `bird` daemon start, the `birdc configure` command, and the
report-done POST. -/
inductive Event where
  | postLock
  | getConfig
  | parseCheck
  | statusProbe
  | startDaemon
  | reconfigure
  | postDone
  deriving DecidableEq

/-- Outcome of one HTTP request made through `requests`: a 2xx success, a
4xx/5xx response (so `raise_for_status` raises `HTTPError`), or a
transport-level failure (e.g. `ConnectionError`), which is not an
`HTTPError`. -/
inductive HttpResult where
  | success
  | httpStatusError
  | transportError
  deriving DecidableEq

/-- `get_lock(handle, headers)` (src/main.py lines 124-134): POST to the
update-lock endpoint; only `requests.exceptions.HTTPError` is caught and
turned into `sys.exit(200)`; a transport error propagates uncaught. -/
def get_lock (r : HttpResult) : StepResult Unit :=
  match r with
  | .success => .ok ()
  | .httpStatusError => .abort (.exit 200)
  | .transportError => .abort (.exc .requestExc)

/-- `get_config(handle, dest, headers)` (src/main.py lines 138-157): GET the
generated config and write `response.text` to the staging file.  An
`HTTPError` (or an `IOError` while writing) leads to `sys.exit()` with no
argument, which exits with status 0; a transport error propagates uncaught. -/
def get_config (r : HttpResult) : StepResult Unit :=
  match r with
  | .success => .ok ()
  | .httpStatusError => .abort (.exit 0)
  | .transportError => .abort (.exc .requestExc)

/-- `is_valid_file(dest)` (src/main.py lines 161-173), applied to the
content of the staging file (`none` when it does not exist).  A missing or
zero-size file exits with 3; a file with fewer than 2 occurrences of the
protocol marker exits with 4. -/
def is_valid_file (content : Option String) : StepResult Unit :=
  match content with
  | none => .abort (.exit 3)
  | some c =>
    if c = "" then .abort (.exit 3)
    else if countPy c protocolMarker < 2 then .abort (.exit 4)
    else .ok ()

/-- `parse_config(dest)` (src/main.py lines 177-186): run `bird -p -c dest`;
a non-zero exit raises `CalledProcessError`, caught and turned into
`sys.exit(7)`.  `parseOk` is whether the subprocess exited with 0. -/
def parse_config (parseOk : Bool) : StepResult Unit :=
  if parseOk then .ok () else .abort (.exit 7)

/-- `revert_config(dest, cfile, socket)` as defined at src/main.py lines
228-246, were it ever entered with its declared three parameters: when no
`.old` backup exists the body is skipped and the function returns `None`;
when a backup exists the first statement `os.move(...)` raises
AttributeError (the `os` module has no `move`; `shutil.move` exists), and
that statement sits outside the `try`, so the `birdc configure` re-issue
and both `sys.exit(6)` branches are unreachable.  In the actual program the
body never runs at all: the only call site (line 280) passes five
positional arguments to the three-parameter function, a `TypeError` raised
before the body. -/
def revert_config (backupExists : Bool) : StepResult Unit × List Event :=
  if backupExists then (.abort (.exc .attributeError), [])
  else (.ok (), [])

/-- `reload_if_needed(socket, cfile, reload_required, dest)` (src/main.py
lines 249-283).  `statusOk` is whether `birdc show status` exits 0,
`startOk` whether the `bird` start command exits 0, `configureOk` whether
`birdc configure` exits 0.  If the status probe fails, the daemon is
started (exit 5 on failure).  Otherwise, when `reload_required` is truthy,
`birdc configure` is run; on its failure the handler at line 280 calls
`revert_config(dest, cfile, socket, debug, logger)` — five positional
arguments to a three-parameter function — so Python raises `TypeError`
there and the rollback body never executes. -/
def reload_if_needed (statusOk startOk configureOk : Bool) (reload_required : Nat) :
    StepResult Unit × List Event :=
  if statusOk = false then
    if startOk then (.ok (), [.statusProbe, .startDaemon])
    else (.abort (.exit 5), [.statusProbe, .startDaemon])
  else if reload_required != 0 then
    if configureOk then (.ok (), [.statusProbe, .reconfigure])
    else (.abort (.exc .typeError), [.statusProbe, .reconfigure])
  else (.ok (), [.statusProbe])

/-- `inform_ixp_manager(handle, headers)` (src/main.py lines 287-302):
POST to the updated endpoint, retrying every 60 seconds on `HTTPError`
until a success; modelled by the number of failed attempts before the
first success, yielding one `postDone` event per attempt. -/
def inform_ixp_manager (failuresBeforeSuccess : Nat) : List Event :=
  List.replicate (failuresBeforeSuccess + 1) .postDone

/-- The environment a run of `main()` encounters after argument parsing:
the outcomes of the HTTP requests and subprocesses, the generated config
text, and the relevant filesystem contents. -/
structure Scenario where
  /-- Outcome of the POST to the get-update-lock endpoint. -/
  lockResp : HttpResult
  /-- Outcome of the GET to the gen-config endpoint. -/
  fetchResp : HttpResult
  /-- `response.text` written to the staging file on fetch success. -/
  fetched : String
  /-- Content of the active config file, `none` when it does not exist. -/
  active : Option String
  /-- Whether `<cfile>.old` exists.  Never consulted by the program: the
  `TypeError` at the `revert_config` call site precedes the existence
  check inside the function body. -/
  backupExists : Bool
  /-- Whether `bird -p -c dest` exits 0. -/
  parseOk : Bool
  /-- Whether `birdc show status` exits 0. -/
  statusOk : Bool
  /-- Whether the `bird` daemon start command exits 0. -/
  startOk : Bool
  /-- Whether `birdc configure` exits 0. -/
  configureOk : Bool
  /-- The `--force` flag. -/
  force : Bool
  /-- Failed report-done attempts before the first success. -/
  reportFailures : Nat

/-- The body of `main()` from the remote lock onward (src/main.py lines
332-348): `get_lock`, `get_config`, `is_valid_file`, `parse_config`,
`detect_change` (whose `1` result is overridden to `1` again by `--force`),
`reload_if_needed`, `inform_ixp_manager`, and the final `sys.exit(0)`.
Each stage's `sys.exit` or uncaught exception stops all later stages.
Returns the process-terminating outcome and the trace of external actions. -/
def pipeline (s : Scenario) : StepResult Unit × List Event :=
  match get_lock s.lockResp with
  | .abort a => (.abort a, [.postLock])
  | .ok _ =>
  match get_config s.fetchResp with
  | .abort a => (.abort a, [.postLock, .getConfig])
  | .ok _ =>
  match is_valid_file (some s.fetched) with
  | .abort a => (.abort a, [.postLock, .getConfig])
  | .ok _ =>
  match parse_config s.parseOk with
  | .abort a => (.abort a, [.postLock, .getConfig, .parseCheck])
  | .ok _ =>
  match detect_change s.active s.fetched with
  | .error e => (.abort (.exc e), [.postLock, .getConfig, .parseCheck])
  | .ok n =>
    let reload_required : Nat := if s.force then 1 else n
    match reload_if_needed s.statusOk s.startOk s.configureOk reload_required with
    | (.abort a, evs) => (.abort a, [.postLock, .getConfig, .parseCheck] ++ evs)
    | (.ok _, evs) =>
      (.abort (.exit 0),
        [.postLock, .getConfig, .parseCheck] ++ evs ++ inform_ixp_manager s.reportFailures)

/-- A callback accepted by `atexit.register`.  CPython's `atexit.register`
validates its first argument at registration time and raises
`TypeError: the first argument must be callable` on a non-callable such as
`None`.  The script's only registration attempt (src/main.py line 120)
passes `remove_lock(lock)`, which evaluates to `None`, so the attempt
raises and no callback is ever registered in any run of this program: the
type has no inhabitant. -/
inductive ExitCb where

instance : DecidableEq ExitCb := fun a => nomatch a

/-- The state the locking code operates on: the lock marker file (content,
or `none` when absent), the callbacks registered with `atexit`, and the
configuration files, which the locking code must not touch. -/
structure LockState where
  lockFile : Option String
  registered : List ExitCb
  configFiles : List (String × String)
  deriving DecidableEq

/-- `remove_lock(lock)` (src/main.py lines 105-107): delete the marker file
if it exists. -/
def remove_lock (st : LockState) : LockState :=
  { st with lockFile := none }

/-- `create_lock(lock, handle)` (src/main.py lines 110-120).  If the marker
file exists, log and `sys.exit(1)` with nothing written.  Otherwise write
the current pid to the marker, then execute
`atexit.register(remove_lock(lock))`: Python evaluates the argument
`remove_lock(lock)` first — deleting the marker that was just created —
and then calls `atexit.register(None)`, which raises
`TypeError: the first argument must be callable` at registration time.
The exception is uncaught, so a fresh acquisition aborts the process with
the marker already gone and nothing registered. -/
def create_lock (st : LockState) (pid : Nat) : StepResult Unit × LockState :=
  if st.lockFile.isSome then
    (.abort (.exit 1), st)
  else
    let st1 := { st with lockFile := some (toString pid) }
    let st2 := remove_lock st1
    (.abort (.exc .typeError), st2)

/-- The active config path, `f"{ETC_PATH}/bird-{handle}.conf"`
(src/main.py line 323). -/
def cfilePath (etcPath handle : String) : String :=
  etcPath ++ "/bird-" ++ handle ++ ".conf"

/-- The staging path, `dest = f"{cfile}.$$"` (src/main.py line 324): in a
Python f-string `$$` is the literal two characters `$$` (a leftover bash
idiom), so every run of the script uses the same staging path and the
process id appears nowhere in it. -/
def destPathOf (etcPath handle : String) : String :=
  cfilePath etcPath handle ++ ".$$"

/-- Modelled from the spec (section 6, "staging file:
`<active-config-path>.<pid>` (unique per run)"): the staging path the
specification describes, for comparison with `destPathOf`. -/
def destPathSpec (etcPath handle : String) (pid : Nat) : String :=
  cfilePath etcPath handle ++ "." ++ toString pid

/-- Active content for the claim C1 scenario: identical to `c1Staged`
except in one whole-line comment. -/
def c1Active : String := "# comment one\nprotocol bgp pb_a\nprotocol bgp pb_b\n"

/-- Staged content for the claim C1 scenario. -/
def c1Staged : String := "# comment two\nprotocol bgp pb_a\nprotocol bgp pb_b\n"

/-- Active content for the claim C2 scenario: differs from `c2Staged` in a
non-comment line. -/
def c2Active : String := "protocol bgp pb_a\nprotocol bgp pb_b\n"

/-- Staged content for the claim C2 scenario. -/
def c2Staged : String := "protocol bgp pb_a\nprotocol bgp pb_c\n"

/-- Claim C3 scenario: everything up to the reload succeeds, the daemon is
running, `birdc configure` fails, and a `.old` backup exists.  The active
config is absent so that `detect_change` completes (it raises `TypeError`
whenever the active file exists) and the reconfigure path is reached. -/
def c3Scenario : Scenario :=
  { lockResp := .success, fetchResp := .success,
    fetched := "protocol bgp pb_a\nprotocol bgp pb_b\n",
    active := none, backupExists := true,
    parseOk := true, statusOk := true, startOk := true, configureOk := false,
    force := false, reportFailures := 0 }

/-- Claim C4 scenario: as the rollback scenario but with no `.old` backup. -/
def c4Scenario : Scenario :=
  { lockResp := .success, fetchResp := .success,
    fetched := "protocol bgp pb_a\nprotocol bgp pb_b\n",
    active := none, backupExists := false,
    parseOk := true, statusOk := true, startOk := true, configureOk := false,
    force := false, reportFailures := 0 }

/-- Lock state with no marker present, for the claim C5 scenario. -/
def freshLockState : LockState :=
  { lockFile := none, registered := [],
    configFiles := [("bird-rs1.conf", "protocol bgp pb_a\nprotocol bgp pb_b\n")] }

/-- Lock state with a marker already present (owner pid 31337), for the
claim C6 witness. -/
def heldLockState : LockState :=
  { lockFile := some "31337", registered := [],
    configFiles := [("bird-rs1.conf", "protocol bgp pb_a\nprotocol bgp pb_b\n")] }

/-- Claim C7 scenario: the fetch succeeds but yields an empty body, so the
staging file is zero-byte. -/
def c7EmptyScenario : Scenario :=
  { lockResp := .success, fetchResp := .success, fetched := "",
    active := none, backupExists := false,
    parseOk := true, statusOk := true, startOk := true, configureOk := true,
    force := false, reportFailures := 0 }

/-- Claim C7 scenario: a non-empty staged file with only one occurrence of
the protocol marker. -/
def c7StructScenario : Scenario :=
  { lockResp := .success, fetchResp := .success, fetched := "protocol bgp pb_a\n",
    active := none, backupExists := false,
    parseOk := true, statusOk := true, startOk := true, configureOk := true,
    force := false, reportFailures := 0 }

/-- Claim C7 scenario: a structurally valid staged file whose `bird -p`
check fails. -/
def c7ParseScenario : Scenario :=
  { lockResp := .success, fetchResp := .success,
    fetched := "protocol bgp pb_a\nprotocol bgp pb_b\n",
    active := none, backupExists := false,
    parseOk := false, statusOk := true, startOk := true, configureOk := true,
    force := false, reportFailures := 0 }

/-- Claim C8 scenario: the lock POST fails at the transport level. -/
def c8TransportScenario : Scenario :=
  { lockResp := .transportError, fetchResp := .success, fetched := "",
    active := none, backupExists := false,
    parseOk := true, statusOk := true, startOk := true, configureOk := true,
    force := false, reportFailures := 0 }

/-- Claim C8 scenario: the lock POST gets a 4xx/5xx response. -/
def c8HttpScenario : Scenario :=
  { lockResp := .httpStatusError, fetchResp := .success, fetched := "",
    active := none, backupExists := false,
    parseOk := true, statusOk := true, startOk := true, configureOk := true,
    force := false, reportFailures := 0 }

/-- A string differing from the empty string has a nonempty character list. -/
theorem toList_len_pos_of_ne_empty (s : String) (h : s ≠ "") :
    0 < s.toList.length := by
  cases s with
  | mk data =>
    cases data with
    | nil => exact absurd rfl h
    | cons a l => simp [String.toList]

/-- A line whose strip is nonempty is skipped by the filter loop: its first
character is a one-character string, which is truthy, so `not` of it is
false and the line is not appended. -/
theorem filterCommentsLines_cons_nonblank (line : String) (rest : List String)
    (acc : String) (h : pyStrip line ≠ "") :
    filterCommentsLines (line :: rest) acc = filterCommentsLines rest acc := by
  have hlen : 0 < (pyStrip line).toList.length := toList_len_pos_of_ne_empty _ h
  simp only [filterCommentsLines, strIndex, dif_pos hlen]
  rfl

/-- A line whose strip is empty makes the loop raise IndexError at
`line.strip()[0]`. -/
theorem filterCommentsLines_cons_blank (line : String) (rest : List String)
    (acc : String) (h : pyStrip line = "") :
    filterCommentsLines (line :: rest) acc = .error .indexError := by
  simp only [filterCommentsLines, h]
  rfl

/-- When every line strips to a nonempty string, the filter loop keeps
nothing and returns the accumulator unchanged. -/
theorem filterCommentsLines_ok (ls : List String) (acc : String)
    (h : ∀ l ∈ ls, pyStrip l ≠ "") : filterCommentsLines ls acc = .ok acc := by
  induction ls generalizing acc with
  | nil => rfl
  | cons line rest ih =>
    rw [filterCommentsLines_cons_nonblank line rest acc (h line (List.mem_cons_self line rest))]
    exact ih acc (fun l hl => h l (List.mem_cons_of_mem line hl))

/-- When some line strips to the empty string, the filter loop raises
IndexError. -/
theorem filterCommentsLines_blank (ls : List String) (acc : String)
    (h : ∃ l, l ∈ ls ∧ pyStrip l = "") :
    filterCommentsLines ls acc = .error .indexError := by
  induction ls generalizing acc with
  | nil =>
    obtain ⟨l, hl, _⟩ := h
    cases hl
  | cons line rest ih =>
    by_cases hb : pyStrip line = ""
    · exact filterCommentsLines_cons_blank line rest acc hb
    · rw [filterCommentsLines_cons_nonblank line rest acc hb]
      apply ih
      obtain ⟨l, hl, he⟩ := h
      rcases List.mem_cons.mp hl with h1 | hmem
      · exact absurd (h1 ▸ he) hb
      · exact ⟨l, hmem, he⟩

/-- Whenever the active config file exists, `detect_change` ends in a
Python error: either `filter_comments` raises IndexError on a blank line,
or the first `hash.update` call raises TypeError on its `str` argument. -/
theorem detect_change_some_errors (a d : String) :
    ∃ e, detect_change (some a) d = .error e := by
  cases hfa : filter_comments a with
  | error e => exact ⟨e, by simp [detect_change, hfa]⟩
  | ok sa =>
    cases hfd : filter_comments d with
    | error e => exact ⟨e, by simp [detect_change, hfa, hfd]⟩
    | ok sd => exact ⟨.typeError, by simp [detect_change, hfa, hfd, PyHash.update]⟩

/-- Claim C1: the spec says that for two files differing only in whole-line
comments, `detect_change` filters out the comments, compares digests of the
filtered remainders, finds them equal and returns 0 (`NoChange`).  In fact
`detect_change` raises `TypeError` on the concrete comment-only-differing
pair below, and more generally ends in a Python error whenever the active
file exists: `filter_comments` never tests for a comment marker (its keep
condition `not line.strip()[0]` is false on every line that has a
non-whitespace character) and the `str` results are passed to `hashlib`'s
`update`, which requires bytes.  So `detect_change` never returns 0. -/
theorem C1_detect_change_raises_on_comment_only_diff :
    detect_change (some c1Active) c1Staged = .error .typeError ∧
    ∀ a d : String, ∃ e, detect_change (some a) d = .error e :=
  ⟨by decide, detect_change_some_errors⟩

/-- Claim C2: the spec says that for files differing in a non-comment line,
`detect_change` returns 1, promotes the staged file and leaves a `.old`
backup.  In fact on the concrete pair below — differing in a non-comment
line, active file existing — `detect_change` raises `TypeError` at its
first `hash.update(str)` call, before any backup or rename; and even the
unreachable promotion branch calls `os.copyfile`, which does not exist in
the `os` module. -/
theorem C2_detect_change_never_promotes :
    detect_change (some c2Active) c2Staged = .error .typeError :=
  by decide

/-- Claim C3: the spec says that when `birdc configure` fails and a `.old`
backup exists, the orchestrator restores the backup, relocates the failed
staged file to `.failed`, re-issues configure, ends in `RolledBack` on
success and exits 6 on failure.  In fact the call
`revert_config(dest, cfile, socket, debug, logger)` passes five positional
arguments to a three-parameter function, so Python raises `TypeError`
before the rollback body runs: the process dies with status 1 (not 6), no
file is restored or relocated, and configure is not re-issued (only one
`reconfigure` event in the trace).  Moreover the body itself, were it
entered with a backup present, would raise `AttributeError` at
`os.move`. -/
theorem C3_rollback_path_raises_type_error :
    pipeline c3Scenario =
      (.abort (.exc .typeError),
        [.postLock, .getConfig, .parseCheck, .statusProbe, .reconfigure]) ∧
    processExit (pipeline c3Scenario).1 = 1 ∧
    revert_config true = (.abort (.exc .attributeError), []) :=
  ⟨by decide, by decide, by decide⟩

/-- Claim C4: when `birdc configure` fails and no `.old` backup exists, the
run still terminates as a failure: the `TypeError` raised at the
five-argument `revert_config` call site propagates uncaught, the
interpreter exits with status 1 (never 0), and the report-done POST is
never made. -/
theorem C4_reconfigure_failure_is_fatal (s : Scenario)
    (hl : s.lockResp = .success) (hf : s.fetchResp = .success)
    (hv : is_valid_file (some s.fetched) = .ok ())
    (hp : s.parseOk = true)
    (ha : s.active = none)
    (_hb : s.backupExists = false)
    (hs : s.statusOk = true) (hc : s.configureOk = false) :
    processExit (pipeline s).1 = 1 ∧ Event.postDone ∉ (pipeline s).2 := by
  have hpipe : pipeline s =
      (.abort (.exc .typeError),
        [.postLock, .getConfig, .parseCheck, .statusProbe, .reconfigure]) := by
    unfold pipeline
    rw [hl, hf, hv, hp, ha, hs, hc]
    simp [get_lock, get_config, parse_config, detect_change, reload_if_needed]
  rw [hpipe]
  exact ⟨rfl, by decide⟩

/-- Claim C4 witness: the concrete no-backup reconfigure-failure scenario
terminates with process status 1 and never posts the completion report. -/
theorem C4_reconfigure_failure_is_fatal_witness :
    processExit (pipeline c4Scenario).1 = 1 ∧
    Event.postDone ∉ (pipeline c4Scenario).2 :=
  C4_reconfigure_failure_is_fatal c4Scenario rfl rfl (by decide) rfl rfl rfl rfl rfl

/-- Claim C5: the spec says the lock marker exists continuously from
acquisition until process exit and its removal at exit is guaranteed on
every exit path.  In fact acquisition never completes:
`atexit.register(remove_lock(lock))` evaluates `remove_lock(lock)` first,
deleting the marker that was just written, and then `atexit.register(None)`
raises `TypeError: the first argument must be callable`.  The uncaught
exception kills the process with status 1, with the marker already gone
and no exit callback registered — so at no point after `create_lock`
returns does a marker exist, and nothing was ever registered for exit. -/
theorem C5_acquisition_deletes_marker_and_raises :
    (create_lock freshLockState 4242).1 = .abort (.exc .typeError) ∧
    processExit (create_lock freshLockState 4242).1 = 1 ∧
    ((create_lock freshLockState 4242).2).lockFile = none ∧
    ((create_lock freshLockState 4242).2).registered = [] ∧
    ((create_lock freshLockState 4242).2).configFiles = freshLockState.configFiles :=
  ⟨rfl, rfl, rfl, rfl, rfl⟩

/-- Claim C6: while a lock marker exists for the handle, a second
acquisition attempt exits with code 1 and returns the state completely
unchanged: the existing marker and its content survive, no second marker is
written, nothing is registered, and no configuration file is touched. -/
theorem C6_second_acquisition_fails_fast (st : LockState) (pid : Nat) (c : String)
    (h : st.lockFile = some c) :
    create_lock st pid = (.abort (.exit 1), st) := by
  unfold create_lock
  rw [h]
  rfl

/-- Claim C6 witness: with a marker owned by pid 31337 present, an
acquisition by pid 999 exits 1 and leaves the state intact. -/
theorem C6_second_acquisition_fails_fast_witness :
    create_lock heldLockState 999 = (.abort (.exit 1), heldLockState) :=
  C6_second_acquisition_fails_fast heldLockState 999 "31337" rfl

/-- Claim C7: a missing staged file exits with code 3; a zero-byte fetch
result exits with code 3; a non-empty staged file with fewer than 2
occurrences of "protocol bgp pb_" exits with code 4 — in the latter two
cases the run's trace is exactly the lock POST and config GET, so the
`bird -p` syntax check is never invoked; and a failing syntax check exits
with code 7. -/
theorem C7_validation_exit_codes :
    (is_valid_file none = .abort (.exit 3)) ∧
    (∀ s : Scenario, s.lockResp = .success → s.fetchResp = .success →
      s.fetched = "" →
      pipeline s = (.abort (.exit 3), [.postLock, .getConfig])) ∧
    (∀ s : Scenario, s.lockResp = .success → s.fetchResp = .success →
      s.fetched ≠ "" → countPy s.fetched protocolMarker < 2 →
      pipeline s = (.abort (.exit 4), [.postLock, .getConfig])) ∧
    (∀ s : Scenario, s.lockResp = .success → s.fetchResp = .success →
      is_valid_file (some s.fetched) = .ok () → s.parseOk = false →
      pipeline s = (.abort (.exit 7), [.postLock, .getConfig, .parseCheck])) := by
  refine ⟨rfl, ?_, ?_, ?_⟩
  · intro s hl hf he
    unfold pipeline
    rw [hl, hf, he]
    rfl
  · intro s hl hf hne hcount
    have hiv : is_valid_file (some s.fetched) = .abort (.exit 4) := by
      simp only [is_valid_file]
      rw [if_neg hne, if_pos hcount]
    unfold pipeline
    rw [hl, hf, hiv]
    rfl
  · intro s hl hf hv hp
    unfold pipeline
    rw [hl, hf, hv, hp]
    rfl

/-- Claim C7 witness: concrete runs hitting exit codes 3, 4 and 7, the
first two with no `parseCheck` event in the trace. -/
theorem C7_validation_exit_codes_witness :
    pipeline c7EmptyScenario = (.abort (.exit 3), [.postLock, .getConfig]) ∧
    pipeline c7StructScenario = (.abort (.exit 4), [.postLock, .getConfig]) ∧
    pipeline c7ParseScenario =
      (.abort (.exit 7), [.postLock, .getConfig, .parseCheck]) :=
  ⟨C7_validation_exit_codes.2.1 c7EmptyScenario rfl rfl rfl,
   C7_validation_exit_codes.2.2.1 c7StructScenario rfl rfl (by decide) (by decide),
   C7_validation_exit_codes.2.2.2 c7ParseScenario rfl rfl (by decide) rfl⟩

/-- Claim C8 counterexample: the claim says every failure of the lock POST
— HTTP 4xx/5xx or transport error — exits with code 200.  A transport
error is not a `requests.exceptions.HTTPError`, so the `except` clause in
`get_lock` does not catch it: the exception propagates, the interpreter
dies with status 1, not 200 (though still with only the lock POST in the
trace). -/
theorem C8_transport_error_not_exit_200 :
    pipeline c8TransportScenario = (.abort (.exc .requestExc), [.postLock]) ∧
    processExit (pipeline c8TransportScenario).1 = 1 :=
  ⟨by decide, by decide⟩

/-- Claim C8 amended: an HTTP 4xx/5xx response to the lock POST exits with
code 200, with no retry and nothing after the single lock POST; a
transport error also aborts the run immediately with no retry and nothing
afterwards, but as an uncaught exception rather than exit code 200. -/
theorem C8_lock_failure_aborts_run (s : Scenario) :
    (s.lockResp = .httpStatusError →
      pipeline s = (.abort (.exit 200), [.postLock])) ∧
    (s.lockResp = .transportError →
      pipeline s = (.abort (.exc .requestExc), [.postLock])) := by
  constructor <;> intro h <;> unfold pipeline <;> rw [h] <;> rfl

/-- Claim C8 amended witness: concrete runs for the 4xx/5xx case and the
transport case. -/
theorem C8_lock_failure_aborts_run_witness :
    pipeline c8HttpScenario = (.abort (.exit 200), [.postLock]) ∧
    pipeline c8TransportScenario = (.abort (.exc .requestExc), [.postLock]) :=
  ⟨(C8_lock_failure_aborts_run c8HttpScenario).1 rfl,
   (C8_lock_failure_aborts_run c8TransportScenario).2 rfl⟩

/-- Claim C9: the spec says the staging file is
`<active-config-path>.<pid>`, unique per run.  In fact the f-string
`f"{cfile}.$$"` appends the literal two characters `$$` (a bash idiom that
does not expand in Python), so the staging path never contains the process
id and is the same for every run of the same handle. -/
theorem C9_staging_path_is_literal_dollars :
    destPathOf "/usr/local/etc/bird" "rs-peering-1" =
      "/usr/local/etc/bird/bird-rs-peering-1.conf.$$" ∧
    (destPathOf "/usr/local/etc/bird" "rs-peering-1" ==
      destPathSpec "/usr/local/etc/bird" "rs-peering-1" 1234) = false :=
  ⟨rfl, by decide⟩

/-- Claim C10: `filter_comments` returns the empty string on any file whose
every line has a non-whitespace character (no line, comment or not, is ever
kept), raises IndexError as soon as some line is blank or whitespace-only,
and consequently `detect_change` ends in a Python error — never a digest
comparison of non-comment content — whenever the active file exists. -/
theorem C10_filter_comments_keeps_nothing_or_raises :
    (∀ content : String, (∀ l ∈ readlines content, pyStrip l ≠ "") →
      filter_comments content = .ok "") ∧
    (∀ content : String, (∃ l, l ∈ readlines content ∧ pyStrip l = "") →
      filter_comments content = .error .indexError) ∧
    (∀ a d : String, ∃ e, detect_change (some a) d = .error e) :=
  ⟨fun _ h => filterCommentsLines_ok _ "" h,
   fun _ h => filterCommentsLines_blank _ "" h,
   detect_change_some_errors⟩

/-- Claim C10 witness: a file of non-blank lines filters to the empty
string; a file with a whitespace-only line raises IndexError. -/
theorem C10_filter_comments_keeps_nothing_or_raises_witness :
    filter_comments "abc\ndef\n" = .ok "" ∧
    filter_comments "abc\n \n" = .error .indexError :=
  ⟨C10_filter_comments_keeps_nothing_or_raises.1 "abc\ndef\n" (by decide),
   C10_filter_comments_keeps_nothing_or_raises.2.1 "abc\n \n"
     ⟨" \n", by decide, by decide⟩⟩

end BirdSync
